import Mathlib

/-!
Verification development for the radar multipath notebook
(`src/notebooks/rt_multi_path.ipynb`) and the design specification of the
radar multipath scene simulation core it depends on.

The repository itself contains only the notebook: the ray-tracing engine,
waveform synthesizer and range processor live in an external closed-source
package.  Following the specification, the engine components are modelled
here as executable Lean definitions over fixed-point integer arithmetic
(positions in micrometres, complex quantities scaled by `S6 = 10^6`), while
the notebook's concrete parameters (radar configuration, target
descriptors, time axis) are transcribed from the notebook source.
-/

namespace RadarSim

/-- Fixed-point scale used throughout the model: values scaled by `10^6`. -/
def S6 : Int := 1000000

/-- 3-D vector with integer components; scene coordinates are micrometres. -/
structure Vec3 where
  x : Int
  y : Int
  z : Int
deriving DecidableEq, Repr

/-- Componentwise sum of two vectors. -/
def Vec3.add (a b : Vec3) : Vec3 := ⟨a.x + b.x, a.y + b.y, a.z + b.z⟩

/-- Componentwise difference of two vectors. -/
def Vec3.sub (a b : Vec3) : Vec3 := ⟨a.x - b.x, a.y - b.y, a.z - b.z⟩

/-- Scaling of a vector by an integer (time step times velocity). -/
def Vec3.smul (t : Int) (a : Vec3) : Vec3 := ⟨t * a.x, t * a.y, t * a.z⟩

/-- Squared Euclidean norm. -/
def Vec3.normSq (a : Vec3) : Int := a.x * a.x + a.y * a.y + a.z * a.z

/-- One Newton step loop for the integer square root, driven by explicit
fuel so that it is structurally recursive and kernel-reducible. -/
def isqrtAux : Nat → Nat → Nat → Nat
  | 0, _, x => x
  | fuel + 1, n, x =>
    let y := (x + n / x) / 2
    if y < x then isqrtAux fuel n y else x

/-- Integer square root (floor), by Newton iteration. -/
def isqrt (n : Nat) : Nat :=
  if n ≤ 1 then n else isqrtAux 128 n n

/-- Euclidean distance between two points, in micrometres (floor). -/
def Vec3.distMu (a b : Vec3) : Int :=
  Int.ofNat (isqrt (Vec3.normSq (Vec3.sub a b)).toNat)

/-- Complex number in fixed-point representation (both parts scaled `S6`
where a unit-magnitude quantity is meant; raw amplitudes use scale 1). -/
structure CInt where
  re : Int
  im : Int
deriving DecidableEq, Repr

/-- Complex zero. -/
def CInt.zero : CInt := ⟨0, 0⟩

/-- Complex addition. -/
def CInt.add (a b : CInt) : CInt := ⟨a.re + b.re, a.im + b.im⟩

/-- Complex multiplication of two `S6`-scaled values, result `S6`-scaled. -/
def CInt.mul (a b : CInt) : CInt :=
  ⟨(a.re * b.re - a.im * b.im) / S6, (a.re * b.im + a.im * b.re) / S6⟩

/-- Real scaling of a complex value by an integer amplitude `g`, the
`S6`-scaled phasor being turned back into an unscaled amplitude. -/
def CInt.scale (g : Int) (a : CInt) : CInt := ⟨g * a.re / S6, g * a.im / S6⟩

/-- Squared magnitude. -/
def CInt.magSq (a : CInt) : Int := a.re * a.re + a.im * a.im

/-- Complex division of `S6`-scaled values, result `S6`-scaled. -/
def CInt.cdiv (a b : CInt) : CInt :=
  let d := b.re * b.re + b.im * b.im
  ⟨(a.re * b.re + a.im * b.im) * S6 / d, (a.im * b.re - a.re * b.im) * S6 / d⟩

/-- Principal complex square root of an `S6`-scaled value, `S6`-scaled. -/
def csqrt (a : CInt) : CInt :=
  let m : Int := Int.ofNat (isqrt (a.re * a.re + a.im * a.im).toNat)
  let rePart : Int := Int.ofNat (isqrt (((m + a.re) * S6 / 2).toNat))
  let imPart : Int := Int.ofNat (isqrt (((m - a.re) * S6 / 2).toNat))
  ⟨rePart, if a.im < 0 then -imPart else imPart⟩

/-- Cosine on the first quarter cycle: the argument is in millicycles
(`0..250`), the result is scaled by `S6`.  Truncated Taylor series after
converting millicycles to an `S6`-scaled angle in radians. -/
def cosQuarter (m : Nat) : Int :=
  let th : Int := (6283185 * (Int.ofNat m)) / 1000
  let t2 : Int := (th * th) / S6
  let p4 : Int := (t2 * t2) / S6
  let p6 : Int := (p4 * t2) / S6
  let p8 : Int := (p6 * t2) / S6
  let p10 : Int := (p8 * t2) / S6
  let p12 : Int := (p10 * t2) / S6
  S6 - t2 / 2 + p4 / 24 - p6 / 720 + p8 / 40320 - p10 / 3628800 + p12 / 479001600

/-- Cosine of an angle given in millicycles (any integer), `S6`-scaled. -/
def cosM (m : Int) : Int :=
  let r : Nat := (Int.emod m 1000).toNat
  if r ≤ 250 then cosQuarter r
  else if r ≤ 500 then -cosQuarter (500 - r)
  else if r ≤ 750 then -cosQuarter (r - 500)
  else cosQuarter (1000 - r)

/-- Sine of an angle in millicycles, as the cosine of the shifted angle. -/
def sinM (m : Int) : Int := cosM (m - 250)

/-- Unit phasor of a phase given in millicycles, `S6`-scaled. -/
def phasor (m : Int) : CInt := ⟨cosM m, sinM m⟩

/-- Triangle of a surface mesh: three vertex positions. -/
structure Triangle where
  v0 : Vec3
  v1 : Vec3
  v2 : Vec3
deriving DecidableEq, Repr

/-- Raw parsed vertex of a mesh file: a coordinate that failed to parse as a
finite number is `none`. -/
structure RawVertex where
  x : Option Int
  y : Option Int
  z : Option Int
deriving DecidableEq, Repr

/-- Raw parsed triangle of a mesh file. -/
structure RawTriangle where
  a : RawVertex
  b : RawVertex
  c : RawVertex
deriving DecidableEq, Repr

/-- Validated Mesh: ordered sequence of triangles, immutable once loaded. -/
structure Mesh where
  tris : List Triangle
deriving DecidableEq, Repr

/-- Error taxonomy of the geometry loader: malformed or empty mesh input. -/
inductive GeometryError where
  | emptyMesh
  | nonFiniteCoordinate
deriving DecidableEq, Repr

/-- A raw vertex all of whose coordinates are finite, as a point. -/
def finiteVertex (v : RawVertex) : Option Vec3 :=
  match v.x, v.y, v.z with
  | some x, some y, some z => some ⟨x, y, z⟩
  | _, _, _ => none

/-- A raw triangle all of whose coordinates are finite. -/
def finiteTriangle (t : RawTriangle) : Option Triangle :=
  match finiteVertex t.a, finiteVertex t.b, finiteVertex t.c with
  | some a, some b, some c => some ⟨a, b, c⟩
  | _, _, _ => none

/-- Placeholder triangle; never kept, as the loader validates finiteness
before reading through it. -/
def defaultTriangle : Triangle := ⟨⟨0, 0, 0⟩, ⟨0, 0, 0⟩, ⟨0, 0, 0⟩⟩

/-- Modelled from the spec: the Geometry Loader (its parser lives in the
external engine, not in this repository).  Given the parsed triangle list of
a mesh file it returns a validated `Mesh` — non-empty triangle list, all
coordinates finite — or fails with `GeometryError`; it is a pure function,
so loading has no side effects. -/
def loadMesh (raw : List RawTriangle) : Except GeometryError Mesh :=
  if raw.isEmpty then .error .emptyMesh
  else if raw.all (fun t => (finiteTriangle t).isSome) then
    .ok ⟨raw.map (fun t => (finiteTriangle t).getD defaultTriangle)⟩
  else .error .nonFiniteCoordinate

/-- Target: a loaded mesh (or `none` when the mesh it references was never
loaded), a location, a constant velocity, an optional complex permittivity
(`S6`-scaled) and the ground flag.  Locations and velocities are in
micrometres (per second). -/
structure Target where
  mesh : Option Mesh
  location : Vec3
  speed : Vec3
  permittivity : Option CInt
  is_ground : Bool
deriving DecidableEq, Repr

/-- Error taxonomy of scene assembly. -/
inductive SceneConfigError where
  | multipleGroundTargets
  | unloadedMesh
deriving DecidableEq, Repr

/-- Number of targets flagged as ground. -/
def groundCount (ts : List Target) : Nat :=
  (ts.filter (fun t => t.is_ground)).length

/-- Modelled from the spec: validation performed by the Scene Assembler
(external engine).  At most one target may be flagged as ground and every
target must reference a loaded mesh; otherwise `SceneConfigError`. -/
def validateTargets (ts : List Target) : Except SceneConfigError Unit :=
  if 2 ≤ groundCount ts then .error .multipleGroundTargets
  else if ts.any (fun t => t.mesh.isNone) then .error .unloadedMesh
  else .ok ()

/-- A target advanced to simulation time `t` (seconds): its position is
`location + velocity * t`. -/
def targetAt (t : Int) (tg : Target) : Target :=
  { tg with location := Vec3.add tg.location (Vec3.smul t tg.speed) }

/-- Modelled from the spec: the Scene Assembler (external engine).  Given
the target list and the simulation time instants it produces one snapshot
per time instant, each target's position updated by `location + velocity *
t`, after validating the target set. -/
def assembleScene (ts : List Target) (times : List Int) :
    Except SceneConfigError (List (List Target)) :=
  (validateTargets ts).map (fun _ => times.map (fun t => ts.map (targetAt t)))

/-- Antenna channel: a location (gain patterns are omitted — the notebook's
channels are isotropic, specifying only a location). -/
structure Channel where
  location : Vec3
deriving DecidableEq, Repr

/-- Transmitter parameters, as configured in the notebook: sweep band `f`
as low and high edges in Hz, chirp duration `t` in nanoseconds, transmit
power in dBm, pulse repetition period in nanoseconds, pulse count and
transmit channels. -/
structure Transmitter where
  f_low : Int
  f_high : Int
  t : Int
  tx_power : Int
  prp : Int
  pulses : Nat
  channels : List Channel
deriving DecidableEq, Repr

/-- Receiver parameters, as configured in the notebook: sample rate in Hz,
noise figure, RF gain and baseband gain in dB, load resistor in Ohm, and
receive channels. -/
structure Receiver where
  fs : Int
  noise_figure : Int
  rf_gain : Int
  load_resistor : Int
  baseband_gain : Int
  channels : List Channel
deriving DecidableEq, Repr

/-- Radar configuration: transmitter, receiver, observation time instants
(seconds), and the derived integer number of samples per pulse. -/
structure Radar where
  transmitter : Transmitter
  receiver : Receiver
  time : List Int
  samples_per_pulse : Nat
deriving DecidableEq, Repr

/-- Error taxonomy of radar configuration: invariant violations caught at
configuration time. -/
inductive ConfigError where
  | pulseLongerThanPrp
  | nonIntegerSamplesPerPulse
deriving DecidableEq, Repr

/-- Nanoseconds per second, for the samples-per-pulse computation. -/
def nsPerSecond : Int := 1000000000

/-- Modelled from the spec: radar configuration validation (external
engine).  The pulse duration must not exceed the pulse repetition interval
and the sample rate must yield an integer number of samples per pulse;
violations fail with `ConfigError` at configuration time, before any
tracing.  On success the configuration carries `samples_per_pulse =
fs * t`. -/
def mkRadar (tx : Transmitter) (rx : Receiver) (time : List Int) :
    Except ConfigError Radar :=
  if tx.prp < tx.t then .error .pulseLongerThanPrp
  else if Int.emod (rx.fs * tx.t) nsPerSecond ≠ 0 then
    .error .nonIntegerSamplesPerPulse
  else
    .ok { transmitter := tx, receiver := rx, time := time,
          samples_per_pulse := (Int.ediv (rx.fs * tx.t) nsPerSecond).toNat }

/-- One finite triangle standing for loaded mesh content. -/
def unitTriangle : Triangle :=
  ⟨⟨0, 0, 0⟩, ⟨1000000, 0, 0⟩, ⟨0, 1000000, 0⟩⟩

/-- Modelled from the spec: the loaded corner-reflector mesh
(`../models/cr.stl`); the STL file is not part of this repository, so a
loaded mesh with one finite triangle stands for its content. -/
def crMesh : Mesh := ⟨[unitTriangle]⟩

/-- Modelled from the spec: the loaded ground-surface mesh
(`../models/surface_400x400.stl`); the STL file is not part of this
repository, so a loaded mesh with one finite triangle stands for its
content. -/
def surfaceMesh : Mesh := ⟨[unitTriangle]⟩

/-- The notebook's corner-reflector target: model `cr.stl`, location
`(10, 0, 0)` m, speed `(1, 0, 0)` m/s, no permittivity, not ground. -/
def target_1 : Target :=
  { mesh := some crMesh, location := ⟨10000000, 0, 0⟩,
    speed := ⟨1000000, 0, 0⟩, permittivity := none, is_ground := false }

/-- The notebook's ground-surface target: model `surface_400x400.stl`,
location `(0, 0, -0.5)` m, speed zero, permittivity `3.2 + 0.1i`, flagged
as ground. -/
def target_2 : Target :=
  { mesh := some surfaceMesh, location := ⟨0, 0, -500000⟩,
    speed := ⟨0, 0, 0⟩, permittivity := some ⟨3200000, 100000⟩,
    is_ground := true }

/-- The notebook's Case-1 target list: reflector and ground surface. -/
def targetsCase1 : List Target := [target_1, target_2]

/-- The notebook's Case-2 target list: reflector only. -/
def targetsCase2 : List Target := [target_1]

/-- The notebook's transmitter: `f = [76.5e9 - 80e6, 76.5e9 + 80e6]` Hz,
`t = 20e-6` s, 15 dBm, `prp = 100e-6` s, one pulse, one channel at the
origin. -/
def notebookTx : Transmitter :=
  { f_low := 76420000000, f_high := 76580000000, t := 20000,
    tx_power := 15, prp := 100000, pulses := 1,
    channels := [⟨⟨0, 0, 0⟩⟩] }

/-- The notebook's receiver: `fs = 20e6` Hz, noise figure 8 dB, RF gain
20 dB, load resistor 1000 Ohm, baseband gain 80 dB, one channel at the
origin. -/
def notebookRx : Receiver :=
  { fs := 20000000, noise_figure := 8, rf_gain := 20,
    load_resistor := 1000, baseband_gain := 80,
    channels := [⟨⟨0, 0, 0⟩⟩] }

/-- The notebook's observation time axis: `np.arange(0, 290, 1)` seconds. -/
def notebookTime : List Int := (List.range 290).map Int.ofNat

/-- The notebook's radar: the transmitter and receiver above with the
290-sample time axis; `samples_per_pulse = fs * t = 400`. -/
def notebookRadar : Radar :=
  { transmitter := notebookTx, receiver := notebookRx,
    time := notebookTime, samples_per_pulse := 400 }

/-- The notebook's plotted range axis: `t_range = 10 + np.arange(0, 290, 1)
* 1` metres. -/
def t_range (k : Nat) : Int := 10 + Int.ofNat k * 1

/-- Wavelength at the centre frequency 76.5 GHz, in nanometres
(`c / f0`). -/
def waveLenNm : Int := 3918856

/-- Amplitude scale constant for the geometric spreading loss. -/
def spreadScale : Int := 1000000000000000000000000000000

/-- Square of an integer. -/
def sq (a : Int) : Int := a * a

/-- Modelled from the spec: geometric spreading loss of a two-leg path,
`1/r^2` per leg, legs given in micrometres and spread over millimetres to
keep the fixed-point amplitude in integer range. -/
def spreadAmp (l1 l2 : Int) : Int :=
  spreadScale / (sq (l1 / 1000) * sq (l2 / 1000))

/-- Modelled from the spec: phase of a path as its total length divided by
the wavelength, in millicycles (length in micrometres). -/
def phaseOfLen (d : Int) : Int := d * 1000000 / waveLenNm

/-- Mirror image of a point across the horizontal ground plane `z = zg`. -/
def mirrorZ (zg : Int) (v : Vec3) : Vec3 := ⟨v.x, v.y, 2 * zg - v.z⟩

/-- Sine of the grazing angle of the specular leg from `a` down to the
ground plane `z = zg` and up to `p`, where `len` is the leg's mirrored
length; `S6`-scaled. -/
def groundLegSin (zg : Int) (a p : Vec3) (len : Int) : Int :=
  ((a.z - zg) + (p.z - zg)) * S6 / len

/-- Modelled from the spec: Fresnel reflection coefficient of the ground
from its complex permittivity and the sine of the grazing angle
(perpendicular polarization), all `S6`-scaled. -/
def fresnelGamma (eps : CInt) (sinPsi : Int) : CInt :=
  let cos2 : Int := S6 - sinPsi * sinPsi / S6
  let w : CInt := csqrt ⟨eps.re - cos2, eps.im⟩
  CInt.cdiv ⟨sinPsi - w.re, -w.im⟩ ⟨sinPsi + w.re, w.im⟩

/-- Modelled from the spec: reflection coefficient of a ground bounce —
the Fresnel coefficient when a permittivity is provided, else total
reflection (perfect conductor, coefficient `-1`). -/
def reflCoeff (eps : Option CInt) (sinPsi : Int) : CInt :=
  match eps with
  | some e => fresnelGamma e sinPsi
  | none => ⟨-1000000, 0⟩

/-- Modelled from the spec: the direct path contribution of one point-like
target at `p` for transmit channel at `txl` and receive channel at `rxl`:
spreading loss per leg and a phase term from the total path length (the
target itself reflects totally, its permittivity being absent). -/
def directContribution (txl rxl p : Vec3) : CInt :=
  let l1 := Vec3.distMu txl p
  let l2 := Vec3.distMu p rxl
  CInt.scale (spreadAmp l1 l2) (phasor (phaseOfLen (l1 + l2)))

/-- Modelled from the spec: the single-ground-bounce multipath contribution
(`Tx → ground → target → ground → Rx`), computed deterministically by the
image method: each leg's length is the distance from the mirrored endpoint,
and each ground bounce multiplies in the reflection coefficient at its
grazing angle. -/
def groundContribution (zg : Int) (eps : Option CInt) (txl rxl p : Vec3) :
    CInt :=
  let l1 := Vec3.distMu (mirrorZ zg txl) p
  let l2 := Vec3.distMu (mirrorZ zg p) rxl
  let g1 := reflCoeff eps (groundLegSin zg txl p l1)
  let g2 := reflCoeff eps (groundLegSin zg p rxl l2)
  CInt.scale (spreadAmp l1 l2)
    (CInt.mul (CInt.mul g1 g2) (phasor (phaseOfLen (l1 + l2))))

/-- Ground-plane data of a target list: the height and permittivity of the
target flagged as ground, when present. -/
def groundInfo (ts : List Target) : Option (Int × Option CInt) :=
  match ts.find? (fun t => t.is_ground) with
  | some t => some (t.location.z, t.permittivity)
  | none => none

/-- Modelled from the spec: the coherent contribution of one target given
the ground-plane data: the direct path, plus the ground-bounce path when a
ground plane is present. -/
def targetGain (g : Option (Int × Option CInt)) (txl rxl p : Vec3) : CInt :=
  match g with
  | none => directContribution txl rxl p
  | some (zg, eps) =>
    CInt.add (directContribution txl rxl p)
      (groundContribution zg eps txl rxl p)

/-- Modelled from the spec: the coherent path gain for one (tx channel, rx
channel, time-sample) triple — all path contributions of all non-ground
targets summed coherently (complex addition). -/
def coherentGain (txl rxl : Vec3) (ts : List Target) : CInt :=
  ((ts.filter (fun t => !t.is_ground)).map
      (fun t => targetGain (groundInfo ts) txl rxl t.location)).foldl
    CInt.add CInt.zero

/-- Table of `10^(k/10)` for `k = 0..9`, `S6`-scaled, for decibel
conversion. -/
def tenthPow (k : Nat) : Int :=
  match k with
  | 0 => 1000000
  | 1 => 1258925
  | 2 => 1584893
  | 3 => 1995262
  | 4 => 2511886
  | 5 => 3162278
  | 6 => 3981072
  | 7 => 5011872
  | 8 => 6309573
  | _ => 7943282

/-- Modelled from the spec: conversion of a (non-negative) decibel figure
to a linear power factor, `S6`-scaled, as required before gains are
multiplied. -/
def dbToLin (db : Nat) : Int := Int.ofNat (10 ^ (db / 10)) * tenthPow (db % 10)

/-- Modelled from the spec: the receiver gain chain as one linear factor —
transmit power times RF gain times baseband gain over the load resistor,
all decibel inputs converted to linear, `S6`-scaled. -/
def chainGain (radar : Radar) : Int :=
  dbToLin radar.transmitter.tx_power.toNat / S6 *
      dbToLin radar.receiver.rf_gain.toNat / S6 *
      dbToLin radar.receiver.baseband_gain.toNat /
    radar.receiver.load_resistor

/-- Speed of light in metres per second. -/
def cLight : Int := 299792458

/-- Modelled from the spec: the FMCW beat phase in millicycles at
within-pulse sample `s` for a round-trip path of `d` micrometres — beat
frequency `bandwidth * delay / pulse-duration`, evaluated at sample time
`s / fs` (delay in femtoseconds for fixed-point precision). -/
def beatPhaseMc (radar : Radar) (d : Int) (s : Nat) : Int :=
  let bw := radar.transmitter.f_high - radar.transmitter.f_low
  let delayFs := d * 1000000000 / cLight
  1000 * bw * delayFs * Int.ofNat s /
    (radar.transmitter.t * 1000000 * radar.receiver.fs)

/-- Round-trip length (micrometres) of the direct path to the first
non-ground target, giving the nominal beat delay; zero without targets. -/
def nominalRoundTrip (txl rxl : Vec3) (ts : List Target) : Int :=
  match ts.filter (fun t => !t.is_ground) with
  | [] => 0
  | t :: _ => Vec3.distMu txl t.location + Vec3.distMu t.location rxl

/-- Modelled from the spec: complex Gaussian thermal noise, represented by
a deterministic pseudo-random draw from the generator state and the sample
index, scaled by the noise figure. -/
def noiseSample (radar : Radar) (seed idx : Nat) : CInt :=
  let a := (seed * 1103515245 + idx * 12345 + 12345) % 2001
  let b := (seed * 69069 + idx * 362437 + 1) % 2001
  CInt.scale (dbToLin radar.receiver.noise_figure.toNat / S6)
    ⟨Int.ofNat a - 1000, Int.ofNat b - 1000⟩

/-- Modelled from the spec: one complex baseband sample — the ideal beat
signal at within-pulse sample `s`, multiplied by the coherent path gain of
the snapshot and by the linear gain chain, plus thermal noise unless noise
is disabled. -/
def basebandSample (radar : Radar) (snapshot : List Target) (txl rxl : Vec3)
    (s : Nat) (noise : Bool) (seed idx : Nat) : CInt :=
  let gain := coherentGain txl rxl snapshot
  let d := nominalRoundTrip txl rxl snapshot
  let sig := CInt.scale (chainGain radar)
    (CInt.mul gain (phasor (beatPhaseMc radar d s)))
  if noise then CInt.add sig (noiseSample radar seed idx) else sig

/-- Result record of a simulation call: the complex baseband sample cube,
indexed `(rx channel, pulse, sample, time sample)`. -/
structure SimResult where
  baseband : List (List (List (List CInt)))
deriving DecidableEq, Repr

/-- Modelled from the spec: the scene simulation call
`simulate(radar_config, targets[], density, noise_enabled)`.  For each
receive channel, pulse, within-pulse sample and observation time instant it
assembles the snapshot at that instant, sums the coherent gains over the
transmit channels and synthesizes the baseband sample.  The `density`
parameter controls the stochastic ray sampling, which the deterministic
image-method model does not consume; `seed` is the generator state consumed
only by the noise model. -/
def simulate (radar : Radar) (ts : List Target) (density : Int)
    (noise : Bool) (seed : Nat) : SimResult :=
  { baseband :=
      radar.receiver.channels.map (fun rxc =>
        (List.range radar.transmitter.pulses).map (fun _p =>
          (List.range radar.samples_per_pulse).map (fun s =>
            radar.time.map (fun t =>
              let snapshot := ts.map (targetAt t)
              let gain := (radar.transmitter.channels.map (fun txc =>
                coherentGain txc.location rxc.location snapshot)).foldl
                  CInt.add CInt.zero
              let txl := (radar.transmitter.channels.headD ⟨⟨0, 0, 0⟩⟩).location
              let d := nominalRoundTrip txl rxc.location snapshot
              let sig := CInt.scale (chainGain radar)
                (CInt.mul gain (phasor (beatPhaseMc radar d s)))
              if noise then
                CInt.add sig (noiseSample radar seed (s + t.toNat))
              else sig)))) }

/-- Modelled from the spec: the notebook's `scene(radar, targets, density,
noise)` call — scene-assembly validation followed by simulation.  The
caller-owned radar configuration is returned alongside the result so that
the model states explicitly what the call leaves of it. -/
def scene (radar : Radar) (ts : List Target) (density : Int) (noise : Bool)
    (seed : Nat) : Except SceneConfigError (SimResult × Radar) :=
  (validateTargets ts).map (fun _ => (simulate radar ts density noise seed, radar))

/-- One range bin of the windowed discrete Fourier transform over the
fast-time (within-pulse) axis, at observation time index `tIdx`. -/
def dftBin (radar : Radar) (window : List Int)
    (pulse0 : List (List CInt)) (tIdx k : Nat) : CInt :=
  (List.range radar.samples_per_pulse).foldl
    (fun acc s =>
      let xv := (pulse0.getD s []).getD tIdx CInt.zero
      let wx := CInt.scale (window.getD s S6) xv
      CInt.add acc
        (CInt.mul ⟨wx.re * S6, wx.im * S6⟩
          (phasor (-(1000 * Int.ofNat k * Int.ofNat s) /
            Int.ofNat radar.samples_per_pulse))))
    CInt.zero

/-- Modelled from the spec: the range processor `range_profile(radar,
baseband, window)` — the window applied across the fast-time axis followed
by a discrete Fourier transform, producing an array indexed
`(time sample, rx channel, range bin)`.  Pure, stateless transform. -/
def cal_range_profile (radar : Radar) (bb : List (List (List (List CInt))))
    (window : List Int) : List (List (List CInt)) :=
  (List.range radar.time.length).map (fun tIdx =>
    bb.map (fun rxData =>
      (List.range radar.samples_per_pulse).map (fun k =>
        dftBin radar window (rxData.headD []) tIdx k)))

/-- Largest squared magnitude over a list of range bins (the notebook's
`np.max(..., axis=2)`, the decibel map being monotone). -/
def maxMagSq (bins : List CInt) : Int :=
  (bins.map CInt.magSq).foldl max 0

/-- The notebook's amplitude map: the range profile reduced over its range
bin axis, leaving an array indexed `(time sample, rx channel)`. -/
def ampFromProfile (rp : List (List (List CInt))) : List (List Int) :=
  rp.map (fun row => row.map maxMagSq)

/-- Location of the notebook's single transmit and receive channel. -/
def originLoc : Vec3 := ⟨0, 0, 0⟩

/-- Squared amplitude of the coherent channel gain at observation time
sample `k` of the notebook's Case 1 (reflector over the ground plane): the
coherent sum of the direct and ground-bounce paths, whose fluctuation
versus range is what the notebook visualizes. -/
def ampMulti (k : Nat) : Int :=
  CInt.magSq (coherentGain originLoc originLoc
    (targetsCase1.map (targetAt (Int.ofNat k))))

/-- Squared amplitude of the coherent channel gain at observation time
sample `k` of the notebook's Case 2 (reflector without the ground
plane). -/
def ampSingle (k : Nat) : Int :=
  CInt.magSq (coherentGain originLoc originLoc
    (targetsCase2.map (targetAt (Int.ofNat k))))

/-- A strict local maximum of a sampled curve at interior index `k`. -/
def localMaxAt (f : Nat → Int) (k : Nat) : Prop :=
  f (k - 1) < f k ∧ f (k + 1) < f k

/-- A strict local minimum of a sampled curve at interior index `k`. -/
def localMinAt (f : Nat → Int) (k : Nat) : Prop :=
  f k < f (k - 1) ∧ f k < f (k + 1)

/-- Boolean check that a sampled curve strictly decreases on the first
`n + 1` samples. -/
def strictDecreasingUpTo (f : Nat → Int) (n : Nat) : Bool :=
  (List.range n).all (fun k => decide (f (k + 1) < f k))

/-- A raw parsed triangle with all coordinates finite, for concrete
instantiations of the loader contract. -/
def rawTri : RawTriangle :=
  ⟨⟨some 0, some 0, some 0⟩, ⟨some 1000000, some 0, some 0⟩,
    ⟨some 0, some 1000000, some 0⟩⟩

/-- A transmitter violating the radar configuration invariant: its pulse
duration (200 μs) exceeds its pulse repetition interval (100 μs). -/
def badTx : Transmitter :=
  { notebookTx with t := 200000 }

theorem Vec3.normSq_sub_comm (a b : Vec3) :
    Vec3.normSq (Vec3.sub a b) = Vec3.normSq (Vec3.sub b a) := by
  simp only [Vec3.normSq, Vec3.sub]
  ring

theorem Vec3.distMu_comm (a b : Vec3) :
    Vec3.distMu a b = Vec3.distMu b a := by
  unfold Vec3.distMu
  rw [Vec3.normSq_sub_comm]

theorem mirror_distMu_comm (zg : Int) (a b : Vec3) :
    Vec3.distMu (mirrorZ zg a) b = Vec3.distMu (mirrorZ zg b) a := by
  unfold Vec3.distMu
  have h : Vec3.normSq (Vec3.sub (mirrorZ zg a) b) =
      Vec3.normSq (Vec3.sub (mirrorZ zg b) a) := by
    simp only [Vec3.normSq, Vec3.sub, mirrorZ]
    ring
  rw [h]

theorem CInt.mul_comm (a b : CInt) : CInt.mul a b = CInt.mul b a := by
  have h1 : a.re * b.re - a.im * b.im = b.re * a.re - b.im * a.im := by ring
  have h2 : a.re * b.im + a.im * b.re = b.re * a.im + b.im * a.re := by ring
  simp only [CInt.mul, h1, h2]

theorem spreadAmp_comm (l1 l2 : Int) : spreadAmp l1 l2 = spreadAmp l2 l1 := by
  unfold spreadAmp
  rw [Int.mul_comm]

theorem directContribution_comm (txl rxl p : Vec3) :
    directContribution txl rxl p = directContribution rxl txl p := by
  simp only [directContribution]
  rw [Vec3.distMu_comm rxl p, Vec3.distMu_comm p txl, spreadAmp_comm,
    Int.add_comm]

theorem groundContribution_comm (zg : Int) (eps : Option CInt)
    (txl rxl p : Vec3) :
    groundContribution zg eps txl rxl p = groundContribution zg eps rxl txl p := by
  simp only [groundContribution]
  rw [mirror_distMu_comm zg rxl p, mirror_distMu_comm zg p txl]
  rw [show groundLegSin zg rxl p (Vec3.distMu (mirrorZ zg p) rxl) =
        groundLegSin zg p rxl (Vec3.distMu (mirrorZ zg p) rxl) from by
      unfold groundLegSin; rw [Int.add_comm]]
  rw [show groundLegSin zg p txl (Vec3.distMu (mirrorZ zg txl) p) =
        groundLegSin zg txl p (Vec3.distMu (mirrorZ zg txl) p) from by
      unfold groundLegSin; rw [Int.add_comm]]
  rw [spreadAmp_comm, Int.add_comm (Vec3.distMu (mirrorZ zg p) rxl),
    CInt.mul_comm (reflCoeff eps _) (reflCoeff eps _)]

theorem targetGain_comm (g : Option (Int × Option CInt)) (txl rxl p : Vec3) :
    targetGain g txl rxl p = targetGain g rxl txl p := by
  match g with
  | none => simp only [targetGain, directContribution_comm]
  | some (zg, eps) =>
    simp only [targetGain, directContribution_comm, groundContribution_comm]

/-- C9: swapping the transmit and receive channel locations leaves the
coherent path gain of every scene snapshot unchanged — here the model's
reciprocity is exact, not only within tolerance, for every (static)
snapshot, symmetric or not. -/
theorem coherentGain_reciprocity (txl rxl : Vec3) (ts : List Target) :
    coherentGain txl rxl ts = coherentGain rxl txl ts := by
  unfold coherentGain
  have h : (fun t => targetGain (groundInfo ts) txl rxl t.location) =
      (fun t : Target => targetGain (groundInfo ts) rxl txl t.location) :=
    funext (fun t => targetGain_comm _ _ _ _)
  rw [h]

/-- C9 witness: reciprocity at a concrete pair of distinct channel
locations over the notebook's Case-1 target set. -/
theorem coherentGain_reciprocity_witness :
    coherentGain ⟨0, 0, 0⟩ ⟨2000000, 0, 1000000⟩ targetsCase1 =
      coherentGain ⟨2000000, 0, 1000000⟩ ⟨0, 0, 0⟩ targetsCase1 :=
  coherentGain_reciprocity ⟨0, 0, 0⟩ ⟨2000000, 0, 1000000⟩ targetsCase1

/-- C8: the geometry loader either returns a validated mesh — necessarily
non-empty, with as many (finite-coordinate) triangles as the input — or
fails with a `GeometryError`; on input with zero triangles it always fails
with `GeometryError.emptyMesh`.  Being a plain function, it has no side
effects. -/
theorem loadMesh_contract (raw : List RawTriangle) :
    (raw = [] → loadMesh raw = .error .emptyMesh) ∧
    (∀ m, loadMesh raw = .ok m →
      raw ≠ [] ∧ m.tris ≠ [] ∧ m.tris.length = raw.length) := by
  constructor
  · intro h
    subst h
    rfl
  · intro m hm
    unfold loadMesh at hm
    by_cases he : raw.isEmpty
    · rw [if_pos he] at hm
      cases hm
    · rw [if_neg he] at hm
      by_cases ha : raw.all (fun t => (finiteTriangle t).isSome)
      · rw [if_pos ha] at hm
        cases hm
        have hr : raw ≠ [] := fun hnil => he (hnil ▸ rfl)
        refine ⟨hr, ?_, by simp⟩
        cases raw with
        | nil => exact absurd rfl hr
        | cons r rest => simp
      · rw [if_neg ha] at hm
        cases hm

/-- C8 witness: the loader rejects the empty input with `emptyMesh` and,
on a concrete one-triangle finite input, returns a mesh with exactly one
triangle. -/
theorem loadMesh_contract_witness :
    loadMesh [] = .error .emptyMesh ∧
    (Mesh.mk [unitTriangle]).tris.length = [rawTri].length := by
  refine ⟨(loadMesh_contract []).1 rfl, ?_⟩
  exact ((loadMesh_contract [rawTri]).2 ⟨[unitTriangle]⟩ rfl).2.2

/-- C2: a target list with two or more ground-flagged targets makes scene
assembly fail with `SceneConfigError.multipleGroundTargets`; the notebook's
Case 1 list has exactly one ground target and its Case 2 list none, and
assembly succeeds on both for every time axis. -/
theorem scene_single_ground_invariant :
    (∀ ts times, 2 ≤ groundCount ts →
      assembleScene ts times = .error .multipleGroundTargets) ∧
    groundCount targetsCase1 = 1 ∧ groundCount targetsCase2 = 0 ∧
    (∀ times, ∃ out, assembleScene targetsCase1 times = .ok out) ∧
    (∀ times, ∃ out, assembleScene targetsCase2 times = .ok out) := by
  refine ⟨?_, rfl, rfl, fun times => ⟨_, rfl⟩, fun times => ⟨_, rfl⟩⟩
  intro ts times h
  unfold assembleScene validateTargets
  rw [if_pos h]
  rfl

/-- C2 witness: a concrete list with the ground surface twice is rejected
with `multipleGroundTargets`; the notebook's own Case-1 list assembles. -/
theorem scene_single_ground_invariant_witness :
    assembleScene [target_2, target_2] [0] = .error .multipleGroundTargets ∧
    ∃ out, assembleScene targetsCase1 [0] = .ok out :=
  ⟨scene_single_ground_invariant.1 [target_2, target_2] [0] (by decide),
    scene_single_ground_invariant.2.2.2.1 [0]⟩

/-- C6: the notebook's configuration satisfies the radar invariant — pulse
duration 20 μs at most the repetition interval 100 μs and `fs * t = 400`
samples per pulse, an integer — and configuration succeeds on it; any
configuration violating either half of the invariant fails with a
`ConfigError` at configuration time. -/
theorem radar_config_invariant :
    mkRadar notebookTx notebookRx notebookTime = .ok notebookRadar ∧
    notebookTx.t ≤ notebookTx.prp ∧
    notebookRadar.samples_per_pulse = 400 ∧
    (∀ tx rx time, (tx.prp < tx.t ∨ Int.emod (rx.fs * tx.t) nsPerSecond ≠ 0) →
      ∃ e, mkRadar tx rx time = .error e) := by
  refine ⟨rfl, by decide, rfl, ?_⟩
  intro tx rx time h
  unfold mkRadar
  split
  · exact ⟨_, rfl⟩
  · next hlt =>
    split
    · exact ⟨_, rfl⟩
    · next hmod =>
      rcases h with h | h
      · exact absurd h hlt
      · exact absurd (not_not.mp hmod) h

/-- C6 witness: a transmitter whose pulse is longer than its repetition
interval is rejected with a `ConfigError`. -/
theorem radar_config_invariant_witness :
    ∃ e, mkRadar badTx notebookRx [] = .error e :=
  radar_config_invariant.2.2.2 badTx notebookRx [] (Or.inl (by decide))

/-- C7: on a validated target list the Scene Assembler produces, for each
time instant `t`, a snapshot in which every target's position equals
`location + velocity * t`; for the notebook's reflector, the x-position at
time sample `k` is `10 + k` metres — exactly the notebook's plotted range
axis `t_range`. -/
theorem scene_assembler_motion (ts : List Target) (times : List Int) :
    (validateTargets ts = .ok () →
      assembleScene ts times = .ok (times.map (fun t => ts.map (targetAt t)))) ∧
    (∀ tg t, (targetAt t tg).location =
      Vec3.add tg.location (Vec3.smul t tg.speed)) ∧
    (∀ k : Nat, (targetAt (Int.ofNat k) target_1).location.x =
      t_range k * 1000000) := by
  refine ⟨?_, fun tg t => rfl, ?_⟩
  · intro h
    unfold assembleScene
    rw [h]
    rfl
  · intro k
    simp only [targetAt, target_1, Vec3.add, Vec3.smul, t_range]
    ring

/-- C7 witness: the notebook's Case-1 list assembled at the single instant
`t = 0`, and the reflector's concrete x-position at time sample 5:
15 metres. -/
theorem scene_assembler_motion_witness :
    assembleScene targetsCase1 [0] =
      .ok ([0].map (fun t => targetsCase1.map (targetAt t))) ∧
    (targetAt (Int.ofNat 5) target_1).location.x = t_range 5 * 1000000 :=
  ⟨(scene_assembler_motion targetsCase1 [0]).1 rfl,
    (scene_assembler_motion [] []).2.2 5⟩

/-- C10: the simulation call leaves the caller-owned radar configuration
unchanged — whenever `scene` succeeds, the configuration it hands back is
the very one passed in — and on the notebook's two cases both invocations
consume the identical constructed radar (so only the target list differs
between the two amplitude curves), whose `samples_per_pulse` is still 400. -/
theorem scene_preserves_radar :
    (∀ radar ts density noise seed out radar2,
      scene radar ts density noise seed = .ok (out, radar2) → radar2 = radar) ∧
    (∀ density noise seed, scene notebookRadar targetsCase1 density noise seed =
      .ok (simulate notebookRadar targetsCase1 density noise seed, notebookRadar)) ∧
    (∀ density noise seed, scene notebookRadar targetsCase2 density noise seed =
      .ok (simulate notebookRadar targetsCase2 density noise seed, notebookRadar)) ∧
    notebookRadar.samples_per_pulse = 400 := by
  refine ⟨?_, fun d n s => rfl, fun d n s => rfl, rfl⟩
  intro radar ts density noise seed out radar2 h
  unfold scene at h
  cases hv : validateTargets ts with
  | error e => rw [hv] at h; cases h
  | ok u =>
    rw [hv] at h
    cases u
    cases h
    rfl

/-- C10 witness: for the notebook's Case-1 call, the radar handed back is
the constructed `notebookRadar` itself. -/
theorem scene_preserves_radar_witness : notebookRadar = notebookRadar :=
  scene_preserves_radar.1 notebookRadar targetsCase1 1 false 0
    (simulate notebookRadar targetsCase1 1 false 0) notebookRadar
    (scene_preserves_radar.2.1 1 false 0)

/-- C3: shapes through the pipeline — the baseband cube is indexed
`(rx channel, pulse, sample, time sample)`, the range profile
`(time sample, rx channel, range bin)`, and the maximum over the range-bin
axis leaves an array indexed `(time sample, rx channel)`; the notebook's
single receive channel makes the column access `amp[:, 0]` valid. -/
theorem pipeline_shapes (radar : Radar) (ts : List Target) (density : Int)
    (noise : Bool) (seed : Nat) (window : List Int) :
    (simulate radar ts density noise seed).baseband.length =
      radar.receiver.channels.length ∧
    (∀ a ∈ (simulate radar ts density noise seed).baseband,
      a.length = radar.transmitter.pulses ∧
      ∀ b ∈ a, b.length = radar.samples_per_pulse ∧
        ∀ c ∈ b, c.length = radar.time.length) ∧
    (cal_range_profile radar (simulate radar ts density noise seed).baseband
        window).length = radar.time.length ∧
    (∀ u ∈ cal_range_profile radar
        (simulate radar ts density noise seed).baseband window,
      u.length = radar.receiver.channels.length ∧
      ∀ v ∈ u, v.length = radar.samples_per_pulse) ∧
    (ampFromProfile (cal_range_profile radar
        (simulate radar ts density noise seed).baseband window)).length =
      radar.time.length ∧
    (∀ w ∈ ampFromProfile (cal_range_profile radar
        (simulate radar ts density noise seed).baseband window),
      w.length = radar.receiver.channels.length) ∧
    notebookRadar.receiver.channels.length = 1 := by
  refine ⟨by simp [simulate], ?_, by simp [cal_range_profile],
    ?_, by simp [ampFromProfile, cal_range_profile], ?_, rfl⟩
  · intro a ha
    simp only [simulate, List.mem_map] at ha
    obtain ⟨rxc, _, rfl⟩ := ha
    refine ⟨by simp, ?_⟩
    intro b hb
    simp only [List.mem_map] at hb
    obtain ⟨p, _, rfl⟩ := hb
    refine ⟨by simp, ?_⟩
    intro c hc
    simp only [List.mem_map] at hc
    obtain ⟨s, _, rfl⟩ := hc
    simp
  · intro u hu
    simp only [cal_range_profile, List.mem_map] at hu
    obtain ⟨tIdx, _, rfl⟩ := hu
    refine ⟨by simp [simulate], ?_⟩
    intro v hv
    simp only [List.mem_map] at hv
    obtain ⟨rxData, _, rfl⟩ := hv
    simp
  · intro w hw
    simp only [ampFromProfile, List.mem_map] at hw
    obtain ⟨row, hrow, rfl⟩ := hw
    simp only [cal_range_profile, List.mem_map] at hrow
    obtain ⟨tIdx, _, rfl⟩ := hrow
    simp [simulate]

/-- C4: with noise disabled, the simulation is a function of the radar
configuration and target list alone — two invocations with identical
inputs but different generator states produce identical output, exactly. -/
theorem simulate_noise_off_deterministic (radar : Radar) (ts : List Target)
    (density : Int) (seed1 seed2 : Nat) :
    simulate radar ts density false seed1 =
      simulate radar ts density false seed2 := by
  simp [simulate]

/-- C4 witness: the notebook's Case-2 call with two different generator
states. -/
theorem simulate_noise_off_deterministic_witness :
    simulate notebookRadar targetsCase2 1 false 0 =
      simulate notebookRadar targetsCase2 1 false 37 :=
  simulate_noise_off_deterministic notebookRadar targetsCase2 1 0 37

theorem coherentGain_nil (a b : Vec3) : coherentGain a b [] = CInt.zero := rfl

theorem foldl_add_zero_of_zeros :
    ∀ l : List CInt, (∀ x ∈ l, x = CInt.zero) →
      ∀ acc, l.foldl CInt.add acc = acc := by
  intro l
  induction l with
  | nil => intro _ _; rfl
  | cons a l ih =>
    intro h acc
    have ha : a = CInt.zero := h a (by simp)
    have hacc : CInt.add acc a = acc := by
      rw [ha]
      simp [CInt.add, CInt.zero]
    rw [List.foldl_cons, hacc]
    exact ih (fun x hx => h x (by simp [hx])) acc

theorem CInt.zero_mul_left (w : CInt) : CInt.mul CInt.zero w = CInt.zero := by
  simp [CInt.mul, CInt.zero, Int.zero_tdiv]

theorem CInt.scale_zero_right (g : Int) : CInt.scale g CInt.zero = CInt.zero := by
  simp [CInt.scale, CInt.zero, Int.zero_tdiv]

/-- C5: with noise disabled and no target in the scene, every complex
sample of the baseband cube has amplitude exactly zero. -/
theorem simulate_no_targets_zero (radar : Radar) (density : Int) (seed : Nat) :
    ((simulate radar [] density false seed).baseband.all (fun a =>
      a.all (fun b => b.all (fun c =>
        c.all (fun v => decide (CInt.magSq v = 0)))))) = true := by
  rw [List.all_eq_true]
  intro a ha
  simp only [simulate, List.mem_map] at ha
  obtain ⟨rxc, _, rfl⟩ := ha
  rw [List.all_eq_true]
  intro b hb
  simp only [List.mem_map] at hb
  obtain ⟨p, _, rfl⟩ := hb
  rw [List.all_eq_true]
  intro c hc
  simp only [List.mem_map] at hc
  obtain ⟨s, _, rfl⟩ := hc
  rw [List.all_eq_true]
  intro v hv
  simp only [List.mem_map] at hv
  obtain ⟨t, _, rfl⟩ := hv
  have hg : ((radar.transmitter.channels.map (fun txc =>
      coherentGain txc.location rxc.location
        (([] : List Target).map (targetAt t)))).foldl CInt.add CInt.zero) =
      CInt.zero := by
    apply foldl_add_zero_of_zeros
    intro x hx
    simp only [List.mem_map] at hx
    obtain ⟨txc, _, rfl⟩ := hx
    rfl
  simp only [List.map_nil] at hg ⊢
  simp only [Bool.false_eq_true, if_false, hg, CInt.zero_mul_left,
    CInt.scale_zero_right]
  rfl

set_option maxRecDepth 200000 in
/-- C1: in the notebook's end-to-end scenario the amplitude-versus-range
curve with the ground target present exhibits at least three strict local
extrema (a maximum at range sample 1, a minimum at 3, a maximum at 4),
while the curve without the ground target decays strictly monotonically
over the whole 290-sample range interval and so has no local extremum at
all — the multipath fluctuation is distinct from the smooth decay trend. -/
theorem multipath_amplitude_fluctuation :
    localMaxAt ampMulti 1 ∧ localMinAt ampMulti 3 ∧ localMaxAt ampMulti 4 ∧
    strictDecreasingUpTo ampSingle 289 = true ∧
    (∀ k : Nat, 1 ≤ k → k ≤ 288 →
      ¬ localMaxAt ampSingle k ∧ ¬ localMinAt ampSingle k) := by
  have hsd : strictDecreasingUpTo ampSingle 289 = true := by decide
  have hdec : ∀ j : Nat, j < 289 → ampSingle (j + 1) < ampSingle j := by
    intro j hj
    have h := List.all_eq_true.mp hsd _ (List.mem_range.mpr hj)
    exact of_decide_eq_true h
  refine ⟨⟨by decide, by decide⟩, ⟨by decide, by decide⟩,
    ⟨by decide, by decide⟩, hsd, ?_⟩
  intro k h1 h2
  constructor
  · rintro ⟨hlt, _⟩
    have h3 := hdec (k - 1) (by omega)
    rw [Nat.sub_add_cancel h1] at h3
    exact absurd hlt (not_lt.mpr h3.le)
  · rintro ⟨_, hlt⟩
    have h3 := hdec k (by omega)
    exact absurd hlt (not_lt.mpr h3.le)

end RadarSim
